import Mathlib

/-!
Verification of the resolution-and-caching pipeline of the Aviapi repository.

The definitions below are shallow embeddings of the TypeScript source:
* `FastCache` embeds `src/server/cache.ts` (class `FastCache`), with the
  JavaScript `Map` modelled as an insertion-ordered association list;
* `Download` and the store operations embed the `downloads` table of
  `src/shared/schema.ts` and the methods of `DatabaseStorage`
  (`src/unnamed/part_004`);
* `songResolve` / `videoResolve` embed the `/api/song/:videoId` and
  `/api/video/:videoId` handlers of `src/server/routes.ts` (first revision),
  with the external collaborators (Telegram, yt-dlp, third-party API)
  supplied as oracle parameters;
* `pollFrom` / `downloadSongViaAPI` / `downloadVideoViaAPI` embed the polling
  loops of `src/server/services/youtube.ts`;
* the two-request system (`TwoReqSys`) and the promoter system (`PromoSys`)
  give small-step interleaving semantics to the concurrent parts of the
  `/api/song` handler (request coalescing and the `setImmediate` background
  upload block), with one atomic step per `await` segment.

Time is modelled as a natural number of milliseconds (`Date.now()`).
-/

/-! ## Memory cache: `src/server/cache.ts` -/

/-- The `CacheItem` interface of `src/server/cache.ts`. -/
structure CacheItem where
  title : String
  downloadUrl : String
  format : String
  duration : String
  timestamp : Nat
deriving Repr, DecidableEq

/-- Model of `Map.get`: the value of the first entry with the given key
(a `Map` holds at most one entry per key). -/
def jsMapGet : List (String × CacheItem) → String → Option CacheItem
  | [], _ => none
  | p :: t, k => if p.1 == k then some p.2 else jsMapGet t k

/-- Model of `Map.set`: update in place when the key is present (keeping its
insertion position), append otherwise. -/
def jsMapSet : List (String × CacheItem) → String → CacheItem →
    List (String × CacheItem)
  | [], k, v => [(k, v)]
  | p :: t, k, v => if p.1 == k then (k, v) :: t else p :: jsMapSet t k v

/-- Model of `Map.delete`: remove the entry with the given key. -/
def jsMapDelete : List (String × CacheItem) → String →
    List (String × CacheItem)
  | [], _ => []
  | p :: t, k => if p.1 == k then t else p :: jsMapDelete t k

/-- The `FastCache` class state: a `Map` in insertion order plus the
configuration fields `maxSize` (source default 1000) and `ttl`
(source default 24 h in milliseconds). -/
structure FastCache where
  entries : List (String × CacheItem)
  maxSize : Nat
  ttl : Nat
deriving Repr, DecidableEq

/-- A fresh cache with the defaults of `src/server/cache.ts`. -/
def FastCache.empty : FastCache :=
  { entries := [], maxSize := 1000, ttl := 24 * 60 * 60 * 1000 }

/-- The key string `videoId + "_" + format`. -/
def cacheKey (videoId format : String) : String :=
  videoId ++ "_" ++ format

/-- The eviction step of `FastCache.set`: when the cache is full, delete the
entry of the first key of the `Map` (the oldest-inserted one). -/
def FastCache.evicted (c : FastCache) : List (String × CacheItem) :=
  if c.entries.length ≥ c.maxSize then
    match c.entries.head? with
    | some p => jsMapDelete c.entries p.1
    | none => c.entries
  else c.entries

/-- Method `set` of `FastCache`: if the cache is full, delete the first (oldest-inserted)
key, then store the data with `timestamp` overwritten by the current time
(`{ ...data, timestamp: Date.now() }`). -/
def FastCache.set (c : FastCache) (videoId format : String) (data : CacheItem)
    (now : Nat) : FastCache :=
  { c with entries := (jsMapSet (FastCache.evicted c) (cacheKey videoId format)
      ({ data with timestamp := now })) }

/-- Method `get` of `FastCache`: return the entry unless it is missing or expired;
a get that observes an expired entry deletes it.  Returns the item (or
`none`) together with the possibly-mutated cache. -/
def FastCache.get (c : FastCache) (videoId format : String) (now : Nat) :
    Option CacheItem × FastCache :=
  match jsMapGet c.entries (cacheKey videoId format) with
  | none => (none, c)
  | some item =>
    if now - item.timestamp > c.ttl then
      (none, { c with entries := jsMapDelete c.entries (cacheKey videoId format) })
    else
      (some item, c)

/-! ### Association-list lemmas -/

theorem jsMapGet_jsMapSet_self (l : List (String × CacheItem)) (k : String)
    (v : CacheItem) : jsMapGet (jsMapSet l k v) k = some v := by
  induction l with
  | nil => simp [jsMapSet, jsMapGet]
  | cons p t ih =>
    by_cases hp : p.1 == k
    · simp [jsMapSet, jsMapGet, hp]
    · simp [jsMapSet, jsMapGet, hp, ih]

theorem jsMapGet_jsMapSet_ne (l : List (String × CacheItem)) (k k' : String)
    (v : CacheItem) (h : k' ≠ k) :
    jsMapGet (jsMapSet l k v) k' = jsMapGet l k' := by
  have hkk : (k == k') = false := by
    cases hb : k == k'
    · rfl
    · have hb2 : k = k' := by simpa using hb
      exact absurd hb2.symm h
  induction l with
  | nil => simp [jsMapSet, jsMapGet, hkk]
  | cons p t ih =>
    by_cases hp : p.1 == k
    · have hpk : p.1 = k := by simpa using hp
      simp [jsMapSet, jsMapGet, hp, hpk, hkk]
    · by_cases hp' : p.1 == k'
      · simp [jsMapSet, jsMapGet, hp, hp']
      · simp [jsMapSet, jsMapGet, hp, hp', ih]

theorem jsMapGet_mem (l : List (String × CacheItem)) (k : String)
    (v : CacheItem) (h : jsMapGet l k = some v) : k ∈ l.map Prod.fst := by
  induction l with
  | nil => simp [jsMapGet] at h
  | cons p t ih =>
    by_cases hp : p.1 == k
    · have : p.1 = k := by simpa using hp
      simp [this]
    · simp only [jsMapGet, hp, Bool.false_eq_true, if_false] at h
      exact List.mem_cons_of_mem _ (ih h)

theorem jsMapGet_jsMapDelete_self_of_nodup (l : List (String × CacheItem))
    (k : String) (hnd : (l.map Prod.fst).Nodup) :
    jsMapGet (jsMapDelete l k) k = none := by
  induction l with
  | nil => simp [jsMapDelete, jsMapGet]
  | cons p t ih =>
    simp only [List.map_cons, List.nodup_cons] at hnd
    by_cases hp : p.1 == k
    · have hpk : p.1 = k := by simpa using hp
      simp only [jsMapDelete, hp, if_true]
      cases hg : jsMapGet t k with
      | none => rfl
      | some v =>
        exfalso
        have hkmem := jsMapGet_mem t k v hg
        rw [← hpk] at hkmem
        exact hnd.1 hkmem
    · simp only [jsMapDelete, hp, Bool.false_eq_true, if_false, jsMapGet]
      exact ih hnd.2

theorem jsMapGet_jsMapDelete_ne (l : List (String × CacheItem)) (k k' : String)
    (h : k' ≠ k) : jsMapGet (jsMapDelete l k) k' = jsMapGet l k' := by
  induction l with
  | nil => rfl
  | cons p t ih =>
    by_cases hp : p.1 == k
    · have hpk : p.1 = k := by simpa using hp
      have hp' : (p.1 == k') = false := by
        cases hb : p.1 == k'
        · rfl
        · have hb2 : k = k' := by simpa [hpk] using hb
          exact absurd hb2.symm h
      simp [jsMapDelete, hp, jsMapGet, hp']
    · by_cases hp' : p.1 == k'
      · simp [jsMapDelete, hp, jsMapGet, hp']
      · simp [jsMapDelete, hp, jsMapGet, hp', ih]

theorem jsMapDelete_sublist (l : List (String × CacheItem)) (k : String) :
    List.Sublist (jsMapDelete l k) l := by
  induction l with
  | nil => simp [jsMapDelete]
  | cons p t ih =>
    by_cases hp : p.1 == k
    · simp only [jsMapDelete, hp, if_true]
      exact List.sublist_cons_self _ _
    · simp only [jsMapDelete, hp, Bool.false_eq_true, if_false]
      exact List.Sublist.cons₂ _ ih

theorem nodupKeys_jsMapDelete (l : List (String × CacheItem)) (k : String)
    (hnd : (l.map Prod.fst).Nodup) :
    ((jsMapDelete l k).map Prod.fst).Nodup :=
  hnd.sublist ((jsMapDelete_sublist l k).map Prod.fst)

theorem mem_keys_jsMapSet (l : List (String × CacheItem)) (k : String)
    (v : CacheItem) (x : String)
    (h : x ∈ (jsMapSet l k v).map Prod.fst) : x = k ∨ x ∈ l.map Prod.fst := by
  induction l with
  | nil => simpa [jsMapSet] using h
  | cons p t ih =>
    by_cases hp : p.1 == k
    · simp only [jsMapSet, hp, if_true, List.map_cons, List.mem_cons] at h
      rcases h with h | h
      · exact Or.inl h
      · exact Or.inr (List.mem_cons_of_mem _ h)
    · simp only [jsMapSet, hp, Bool.false_eq_true, if_false, List.map_cons,
        List.mem_cons] at h
      rcases h with h | h
      · exact Or.inr (by simp [h])
      · rcases ih h with h2 | h2
        · exact Or.inl h2
        · exact Or.inr (List.mem_cons_of_mem _ h2)

theorem nodupKeys_jsMapSet (l : List (String × CacheItem)) (k : String)
    (v : CacheItem) (hnd : (l.map Prod.fst).Nodup) :
    ((jsMapSet l k v).map Prod.fst).Nodup := by
  induction l with
  | nil => simp [jsMapSet]
  | cons p t ih =>
    simp only [List.map_cons, List.nodup_cons] at hnd
    by_cases hp : p.1 == k
    · have hpk : p.1 = k := by simpa using hp
      simp only [jsMapSet, hp, if_true, List.map_cons, List.nodup_cons]
      exact ⟨by rw [← hpk]; exact hnd.1, hnd.2⟩
    · simp only [jsMapSet, hp, Bool.false_eq_true, if_false, List.map_cons,
        List.nodup_cons]
      refine ⟨fun hmem => ?_, ih hnd.2⟩
      rcases mem_keys_jsMapSet t k v p.1 hmem with h2 | h2
      · exact hp (by simp [h2])
      · exact hnd.1 h2

theorem nodupKeys_evicted (c : FastCache)
    (hnd : (c.entries.map Prod.fst).Nodup) :
    ((FastCache.evicted c).map Prod.fst).Nodup := by
  unfold FastCache.evicted
  split
  · split
    · exact nodupKeys_jsMapDelete _ _ hnd
    · exact hnd
  · exact hnd

theorem nodupKeys_set (c : FastCache) (vid fmt : String) (data : CacheItem)
    (now : Nat) (hnd : (c.entries.map Prod.fst).Nodup) :
    (((FastCache.set c vid fmt data now).entries).map Prod.fst).Nodup :=
  nodupKeys_jsMapSet _ _ _ (nodupKeys_evicted c hnd)

theorem evicted_of_full (c : FastCache) (e0 : String × CacheItem)
    (hfull : c.entries.length ≥ c.maxSize) (hhead : c.entries.head? = some e0) :
    FastCache.evicted c = jsMapDelete c.entries e0.1 := by
  unfold FastCache.evicted
  rw [if_pos hfull, hhead]

/-- A sample cache item used in concrete witnesses. -/
def demoItem (s : String) : CacheItem :=
  { title := s, downloadUrl := s, format := "mp3", duration := "1:00",
    timestamp := 0 }

/-- A small cache configuration used in concrete witnesses. -/
def smallCache : FastCache :=
  { entries := [], maxSize := 2, ttl := 100 }

/-! ## Claims about the memory cache (C6, C7, C10) -/

/-- C6: a cache entry inserted at time `T` is a hit for every `get` strictly
before `T + TTL` and a miss for every `get` strictly after `T + TTL`; the
`get` that observes the expired entry removes it from the cache. -/
theorem fastCache_ttl (c : FastCache) (vid fmt : String) (data : CacheItem)
    (T t : Nat) (hnd : (c.entries.map Prod.fst).Nodup) :
    (t < T + c.ttl →
      (FastCache.get (FastCache.set c vid fmt data T) vid fmt t).1
        = some { data with timestamp := T }) ∧
    (T + c.ttl < t →
      (FastCache.get (FastCache.set c vid fmt data T) vid fmt t).1 = none ∧
      jsMapGet ((FastCache.get (FastCache.set c vid fmt data T) vid fmt t).2).entries
        (cacheKey vid fmt) = none) := by
  have hg : jsMapGet (FastCache.set c vid fmt data T).entries (cacheKey vid fmt)
      = some { data with timestamp := T } := jsMapGet_jsMapSet_self _ _ _
  constructor
  · intro hlt
    have hc : ¬ ((FastCache.set c vid fmt data T).ttl < t - T) := by
      show ¬ (c.ttl < t - T)
      omega
    simp [FastCache.get, hg, hc]
  · intro hgt
    have hc : (FastCache.set c vid fmt data T).ttl < t - T := by
      show c.ttl < t - T
      omega
    constructor
    · simp [FastCache.get, hg, hc]
    · have hdel :
          (FastCache.get (FastCache.set c vid fmt data T) vid fmt t).2.entries
            = jsMapDelete (FastCache.set c vid fmt data T).entries
                (cacheKey vid fmt) := by
        simp [FastCache.get, hg, hc]
      rw [hdel]
      exact jsMapGet_jsMapDelete_self_of_nodup _ _
        (nodupKeys_set c vid fmt data T hnd)

/-- Witness for C6 at a concrete input: a set at time 5 on the small cache is
a hit at time 50 and a miss at time 106, which also removes the entry. -/
theorem fastCache_ttl_witness :
    (FastCache.get (FastCache.set smallCache "v" "mp3" (demoItem "a") 5)
        "v" "mp3" 50).1 = some { demoItem "a" with timestamp := 5 } ∧
    (FastCache.get (FastCache.set smallCache "v" "mp3" (demoItem "a") 5)
        "v" "mp3" 106).1 = none := by
  refine ⟨?_, ?_⟩
  · exact (fastCache_ttl smallCache "v" "mp3" (demoItem "a") 5 50
      (by simp [smallCache])).1 (by decide)
  · exact ((fastCache_ttl smallCache "v" "mp3" (demoItem "a") 5 106
      (by simp [smallCache])).2 (by decide)).1

/-- Scenario E of the spec: a capacity-2 cache receiving three distinct keys. -/
def scenarioE : FastCache :=
  FastCache.set (FastCache.set (FastCache.set
    { entries := [], maxSize := 2, ttl := 86400000 }
    "k1" "mp3" (demoItem "a") 1) "k2" "mp3" (demoItem "b") 2)
    "k3" "mp3" (demoItem "c") 3

/-- C7: when the cache is at capacity, `set` evicts exactly the
oldest-inserted entry (the first key of the map) before storing the new one:
the oldest key becomes absent, the new key is stored, and every other key is
untouched.  In particular, with capacity 2, inserting three distinct keys
leaves the first key a miss and the two later keys hits. -/
theorem fastCache_evicts_oldest
    (c : FastCache) (vid fmt : String) (d : CacheItem) (T : Nat)
    (e0 : String × CacheItem)
    (hfull : c.entries.length ≥ c.maxSize)
    (hhead : c.entries.head? = some e0)
    (hnd : (c.entries.map Prod.fst).Nodup)
    (hne : cacheKey vid fmt ≠ e0.1) :
    (jsMapGet (FastCache.set c vid fmt d T).entries e0.1 = none ∧
     jsMapGet (FastCache.set c vid fmt d T).entries (cacheKey vid fmt)
       = some { d with timestamp := T } ∧
     ∀ k, k ≠ e0.1 → k ≠ cacheKey vid fmt →
       jsMapGet (FastCache.set c vid fmt d T).entries k
         = jsMapGet c.entries k) ∧
    ((FastCache.get scenarioE "k1" "mp3" 4).1 = none ∧
     (FastCache.get scenarioE "k2" "mp3" 4).1
       = some { demoItem "b" with timestamp := 2 } ∧
     (FastCache.get scenarioE "k3" "mp3" 4).1
       = some { demoItem "c" with timestamp := 3 }) := by
  have hev : FastCache.evicted c = jsMapDelete c.entries e0.1 :=
    evicted_of_full c e0 hfull hhead
  have hents : (FastCache.set c vid fmt d T).entries
      = jsMapSet (jsMapDelete c.entries e0.1) (cacheKey vid fmt)
          ({ d with timestamp := T }) := by
    show jsMapSet (FastCache.evicted c) _ _ = _
    rw [hev]
  refine ⟨⟨?_, ?_, ?_⟩, ?_, ?_, ?_⟩
  · rw [hents, jsMapGet_jsMapSet_ne _ _ _ _ (fun he => hne he.symm)]
    exact jsMapGet_jsMapDelete_self_of_nodup _ _ hnd
  · rw [hents]
    exact jsMapGet_jsMapSet_self _ _ _
  · intro k hk0 hkc
    rw [hents, jsMapGet_jsMapSet_ne _ _ _ _ hkc,
      jsMapGet_jsMapDelete_ne _ _ _ hk0]
  · rfl
  · rfl
  · rfl

/-- Witness for C7: a full capacity-1 cache holding key `a_mp3`; setting key
`b_mp3` evicts `a_mp3`. -/
theorem fastCache_evicts_oldest_witness :
    jsMapGet (FastCache.set
      { entries := [("a_mp3", demoItem "x")], maxSize := 1, ttl := 100 }
      "b" "mp3" (demoItem "y") 7).entries "a_mp3" = none :=
  ((fastCache_evicts_oldest
    { entries := [("a_mp3", demoItem "x")], maxSize := 1, ttl := 100 }
    "b" "mp3" (demoItem "y") 7 ("a_mp3", demoItem "x")
    (by decide) (by decide) (by decide) (by decide)).1).1

/-- C10: `set` stores the entry with `timestamp` equal to the set-call time,
discarding the timestamp supplied by the caller in `data`; consequently
re-setting a key refreshes its TTL, so a later `get` measures expiry from the
most recent set. -/
theorem fastCache_set_timestamp
    (c : FastCache) (vid fmt : String) (data data1 : CacheItem)
    (T1 T t : Nat) :
    jsMapGet (FastCache.set c vid fmt data T).entries (cacheKey vid fmt)
      = some { data with timestamp := T } ∧
    (t < T + c.ttl →
      (FastCache.get (FastCache.set (FastCache.set c vid fmt data1 T1)
          vid fmt data T) vid fmt t).1 = some { data with timestamp := T }) := by
  constructor
  · exact jsMapGet_jsMapSet_self _ _ _
  · intro hlt
    have hg : jsMapGet (FastCache.set (FastCache.set c vid fmt data1 T1)
        vid fmt data T).entries (cacheKey vid fmt)
        = some { data with timestamp := T } := jsMapGet_jsMapSet_self _ _ _
    have hc : ¬ ((FastCache.set (FastCache.set c vid fmt data1 T1)
        vid fmt data T).ttl < t - T) := by
      show ¬ (c.ttl < t - T)
      omega
    simp [FastCache.get, hg, hc]

/-- Witness for C10: a key set at time 1 and re-set at time 60 (with a bogus
caller-supplied timestamp 777) is still a hit at time 130 on the 100ms-TTL
cache, with stored timestamp 60. -/
theorem fastCache_set_timestamp_witness :
    (FastCache.get (FastCache.set (FastCache.set smallCache "v" "mp3"
        (demoItem "a") 1) "v" "mp3" ({ demoItem "b" with timestamp := 777 }) 60)
      "v" "mp3" 130).1 = some { demoItem "b" with timestamp := 60 } :=
  (fastCache_set_timestamp smallCache "v" "mp3"
    ({ demoItem "b" with timestamp := 777 }) (demoItem "a") 1 60 130).2
    (by decide)

/-! ## Persistent store: the `downloads` table of `src/shared/schema.ts`
and the `DatabaseStorage` methods of `src/unnamed/part_004`.

The schema declares `id` as the only key of `downloads`: there is no unique
constraint on `(youtube_id, format)`.  The table is modelled as a list of
rows in insertion order. -/

/-- A row of the `downloads` table.  `youtubeId` and `format` follow the
insert call sites (always provided); the remaining text columns are nullable.
`status` defaults to `"processing"`. -/
structure Download where
  id : Nat
  youtubeId : String
  format : String
  title : Option String := none
  telegramMessageId : Option String := none
  telegramFileId : Option String := none
  fileSize : Option Nat := none
  duration : Option String := none
  status : String := "processing"
  downloadUrl : Option String := none
deriving Repr, DecidableEq

/-- The partial update object passed to `DatabaseStorage.updateDownload`
(`db.update(downloads).set(updates)`): `some v` sets the column, `none`
leaves it unchanged. -/
structure DlUpdate where
  title : Option String := none
  telegramMessageId : Option String := none
  telegramFileId : Option String := none
  fileSize : Option Nat := none
  duration : Option String := none
  status : Option String := none
  downloadUrl : Option String := none
deriving Repr, DecidableEq

/-- Apply a partial update to a row. -/
def applyUpdate (d : Download) (u : DlUpdate) : Download :=
  { d with
    title := match u.title with | some v => some v | none => d.title,
    telegramMessageId :=
      match u.telegramMessageId with | some v => some v | none => d.telegramMessageId,
    telegramFileId :=
      match u.telegramFileId with | some v => some v | none => d.telegramFileId,
    fileSize := match u.fileSize with | some v => some v | none => d.fileSize,
    duration := match u.duration with | some v => some v | none => d.duration,
    status := match u.status with | some v => v | none => d.status,
    downloadUrl :=
      match u.downloadUrl with | some v => some v | none => d.downloadUrl }

/-- Method `DatabaseStorage.getDownloadByYoutubeId`: the first row matching the
youtube id and format whose `status` is `"completed"`. -/
def getDownloadByYoutubeId (db : List Download) (yid fmt : String) :
    Option Download :=
  db.find? (fun d => d.youtubeId == yid && d.format == fmt
    && d.status == "completed")

/-- Method `DatabaseStorage.createDownload`: an unconditional insert returning the
new row.  The schema has no unique constraint on `(youtube_id, format)`, so
the insert never conflicts; the fresh `id` is modelled by the row count. -/
def createDownload (db : List Download) (yid fmt : String) :
    Download × List Download :=
  let d : Download := { id := db.length, youtubeId := yid, format := fmt }
  (d, db ++ [d])

/-- Method `DatabaseStorage.updateDownload`: set the given columns on the row with
the given id. -/
def updateDownload (db : List Download) (i : Nat) (u : DlUpdate) :
    List Download :=
  db.map (fun d => if d.id == i then applyUpdate d u else d)

/-- The row returned by `updateDownload(...).returning()`. -/
def getById (db : List Download) (i : Nat) : Option Download :=
  db.find? (fun d => d.id == i)

/-- Number of rows for a content key. -/
def keyCount (db : List Download) (yid fmt : String) : Nat :=
  (db.filter (fun d => d.youtubeId == yid && d.format == fmt)).length

/-! ## The `/api/song/:videoId` handler of `src/server/routes.ts` -/

/-- The storage tier consulted by a handler step. -/
inductive Tier
  | store
  | archive
  | memory
  | origin
deriving Repr, DecidableEq

/-- Observable events of one handler run: tier consultations, the response
being sent, and the scheduling of the `setImmediate` background-promotion
block. -/
inductive Ev
  | consult (t : Tier)
  | respond
  | promote
deriving Repr, DecidableEq

/-- The JSON body of a handler response; absent fields are `none`. -/
structure RespBody where
  status : Option String := none
  title : Option String := none
  link : Option String := none
  format : Option String := none
  duration : Option String := none
  size : Option String := none
  error : Option String := none
  message : Option String := none
  videoId : Option String := none
deriving Repr, DecidableEq

/-- An HTTP response: status code plus JSON body. -/
structure HttpResponse where
  code : Nat
  body : RespBody
deriving Repr, DecidableEq

/-- Results of the external collaborators consulted by the `/api/song`
handler: the Telegram `getFile` refresh (a fresh direct URL when it
succeeds), `youtubeService.getVideoInfo` (title and duration), and
`youtubeService.downloadSongViaAPI` (a direct download URL, or `none` when
the result carries an `error` / no `filePath`). -/
structure SongOracles where
  telegramGetFile : Option String
  videoInfo : Option (String × String)
  apiDownload : Option String
deriving Repr, DecidableEq

/-- Shared mutable state seen by the handler: the `downloads` table and the
in-process memory cache. -/
structure SongState where
  db : List Download
  cache : FastCache
deriving Repr, DecidableEq

/-- Outcome of one `/api/song` run: the HTTP response, the final shared
state, the event trace, and how many times `downloadSongViaAPI` (the origin
content fetch) was invoked. -/
structure SongResult where
  resp : HttpResponse
  state : SongState
  events : List Ev
  contentFetches : Nat
deriving Repr, DecidableEq

/-- The create-record-and-origin-fetch tail of the `/api/song` handler:
`createDownload`, `getVideoInfo` (404 on `null`), `downloadSongViaAPI`
(500 on error), then the completed-update, cache fill, immediate response
and `setImmediate` promotion scheduling. -/
def songCreateAndFetch (o : SongOracles) (now : Nat) (videoId : String)
    (db : List Download) (cache : FastCache) (evs : List Ev) : SongResult :=
  let pr := createDownload db videoId "mp3"
  let evs1 := evs ++ [Ev.consult Tier.origin]
  match o.videoInfo with
  | none =>
    { resp := { code := 404, body := { error := some "Video not found" } },
      state := { db := updateDownload pr.2 pr.1.id { status := some "failed" },
                 cache := cache },
      events := evs1 ++ [Ev.respond], contentFetches := 0 }
  | some vi =>
    match o.apiDownload with
    | none =>
      { resp := { code := 500, body := { error := some "Download failed" } },
        state := { db := updateDownload pr.2 pr.1.id { status := some "failed" },
                   cache := cache },
        events := evs1 ++ [Ev.respond], contentFetches := 1 }
    | some url =>
      let db2 := updateDownload pr.2 pr.1.id
        { title := some vi.1, downloadUrl := some url, duration := some vi.2,
          status := some "completed" }
      let upd := (getById db2 pr.1.id).getD pr.1
      let cache2 := FastCache.set cache videoId "mp3"
        { title := upd.title.getD "Unknown Title",
          downloadUrl := upd.downloadUrl.getD "",
          format := upd.format, duration := upd.duration.getD "Unknown",
          timestamp := now } now
      { resp :=
          { code := 200,
            body :=
              { status := some "done", title := upd.title,
                link := upd.downloadUrl, format := some upd.format,
                duration := upd.duration } },
        state := { db := db2, cache := cache2 },
        events := evs1 ++ [Ev.respond, Ev.promote], contentFetches := 1 }

/-- STEP 3 of the `/api/song` handler: the database-cache check.  The
`"downloading"` branch of the source (a 20 x 3 s wait loop) is unreachable
because `getDownloadByYoutubeId` only returns `"completed"` rows; on timeout
the source falls through to the create path, which is the modelled net
effect. -/
def songStep3 (o : SongOracles) (now : Nat) (videoId : String)
    (db : List Download) (cache : FastCache) (evs : List Ev) : SongResult :=
  let evs1 := evs ++ [Ev.consult Tier.store]
  match getDownloadByYoutubeId db videoId "mp3" with
  | some ex =>
    if ex.status == "completed" then
      let cache2 := FastCache.set cache videoId "mp3"
        { title := ex.title.getD "Unknown Title",
          downloadUrl := ex.downloadUrl.getD "",
          format := ex.format, duration := ex.duration.getD "Unknown",
          timestamp := now } now
      { resp :=
          { code := 200,
            body :=
              { status := some "done", title := ex.title,
                link := ex.downloadUrl, format := some ex.format,
                duration := ex.duration } },
        state := { db := db, cache := cache2 },
        events := evs1 ++ [Ev.respond], contentFetches := 0 }
    else if ex.status == "downloading" then
      songCreateAndFetch o now videoId db cache evs1
    else
      songCreateAndFetch o now videoId db cache evs1
  | none => songCreateAndFetch o now videoId db cache evs1

/-- STEP 2 of the `/api/song` handler: the memory-cache check. -/
def songStep2 (o : SongOracles) (now : Nat) (videoId : String)
    (db : List Download) (cache : FastCache) (evs : List Ev) : SongResult :=
  let evs1 := evs ++ [Ev.consult Tier.memory]
  let g := FastCache.get cache videoId "mp3" now
  match g.1 with
  | some item =>
    { resp :=
        { code := 200,
          body :=
            { status := some "done", title := some item.title,
              link := some item.downloadUrl, format := some item.format,
              duration := some item.duration } },
      state := { db := db, cache := g.2 },
      events := evs1 ++ [Ev.respond], contentFetches := 0 }
  | none => songStep3 o now videoId db g.2 evs1

/-- The `/api/song/:videoId` handler (first revision of
`src/server/routes.ts`): STEP 1 checks the store for a completed row with a
Telegram file id and tries the Telegram `getFile` refresh; on failure it
falls through to the memory cache (STEP 2), the database cache (STEP 3) and
finally the create-and-origin-fetch path. -/
def songResolve (o : SongOracles) (now : Nat) (videoId : String)
    (s : SongState) : SongResult :=
  let evs := [Ev.consult Tier.store]
  match getDownloadByYoutubeId s.db videoId "mp3" with
  | some d =>
    if d.telegramFileId.isSome && d.status == "completed" then
      match o.telegramGetFile with
      | some url =>
        let cache2 := FastCache.set s.cache videoId "mp3"
          { title := d.title.getD "Unknown Title", downloadUrl := url,
            format := "mp3", duration := d.duration.getD "Unknown",
            timestamp := now } now
        { resp :=
            { code := 200,
              body :=
                { status := some "done", title := d.title,
                  link := some url, format := some "mp3",
                  duration := d.duration } },
          state := { db := s.db, cache := cache2 },
          events := evs ++ [Ev.consult Tier.archive, Ev.respond],
          contentFetches := 0 }
      | none =>
        songStep2 o now videoId s.db s.cache (evs ++ [Ev.consult Tier.archive])
    else
      songStep2 o now videoId s.db s.cache evs
  | none => songStep2 o now videoId s.db s.cache evs

/-- The tiers consulted during a run, in order. -/
def tierTrace (evs : List Ev) : List Tier :=
  evs.filterMap (fun e => match e with | Ev.consult t => some t | _ => none)

/-- Predicate `isInitSeg l m` holds when `l` is an initial segment of `m`. -/
def isInitSeg : List Tier → List Tier → Bool
  | [], _ => true
  | _ :: _, [] => false
  | a :: l, b :: m => a == b && isInitSeg l m

/-! ## Claim C3: tier order of a resolve request -/

theorem songCreateAndFetch_events (o : SongOracles) (now : Nat)
    (vid : String) (db : List Download) (cache : FastCache) (evs : List Ev) :
    (songCreateAndFetch o now vid db cache evs).events
        = evs ++ [Ev.consult Tier.origin, Ev.respond] ∨
    (songCreateAndFetch o now vid db cache evs).events
        = evs ++ [Ev.consult Tier.origin, Ev.respond, Ev.promote] := by
  unfold songCreateAndFetch
  cases hvi : o.videoInfo with
  | none => left; simp
  | some vi =>
    cases had : o.apiDownload with
    | none => left; simp
    | some url => right; simp

theorem songStep3_events (o : SongOracles) (now : Nat)
    (vid : String) (db : List Download) (cache : FastCache) (evs : List Ev) :
    (songStep3 o now vid db cache evs).events
        = evs ++ [Ev.consult Tier.store, Ev.respond] ∨
    (songStep3 o now vid db cache evs).events
        = evs ++ [Ev.consult Tier.store, Ev.consult Tier.origin, Ev.respond] ∨
    (songStep3 o now vid db cache evs).events
        = evs ++ [Ev.consult Tier.store, Ev.consult Tier.origin, Ev.respond,
            Ev.promote] := by
  unfold songStep3
  cases hex : getDownloadByYoutubeId db vid "mp3" with
  | some ex =>
    by_cases hc : ex.status == "completed"
    · left
      simp [hc]
    · by_cases hd : ex.status == "downloading"
      · rcases songCreateAndFetch_events o now vid db cache
          (evs ++ [Ev.consult Tier.store]) with h | h
        · right; left; simp [hc, hd, h]
        · right; right; simp [hc, hd, h]
      · rcases songCreateAndFetch_events o now vid db cache
          (evs ++ [Ev.consult Tier.store]) with h | h
        · right; left; simp [hc, hd, h]
        · right; right; simp [hc, hd, h]
  | none =>
    rcases songCreateAndFetch_events o now vid db cache
        (evs ++ [Ev.consult Tier.store]) with h | h
    · right; left; simp [h]
    · right; right; simp [h]

theorem songStep2_events (o : SongOracles) (now : Nat)
    (vid : String) (db : List Download) (cache : FastCache) (evs : List Ev) :
    (songStep2 o now vid db cache evs).events
        = evs ++ [Ev.consult Tier.memory, Ev.respond] ∨
    (songStep2 o now vid db cache evs).events
        = evs ++ [Ev.consult Tier.memory, Ev.consult Tier.store, Ev.respond] ∨
    (songStep2 o now vid db cache evs).events
        = evs ++ [Ev.consult Tier.memory, Ev.consult Tier.store,
            Ev.consult Tier.origin, Ev.respond] ∨
    (songStep2 o now vid db cache evs).events
        = evs ++ [Ev.consult Tier.memory, Ev.consult Tier.store,
            Ev.consult Tier.origin, Ev.respond, Ev.promote] := by
  unfold songStep2
  cases hg : (FastCache.get cache vid "mp3" now).1 with
  | some item => left; simp [hg]
  | none =>
    rcases songStep3_events o now vid db (FastCache.get cache vid "mp3" now).2
        (evs ++ [Ev.consult Tier.memory]) with h | h | h
    · right; left; simp [hg, h]
    · right; right; left; simp [hg, h]
    · right; right; right; simp [hg, h]

theorem songResolve_events (o : SongOracles) (now : Nat) (vid : String)
    (s : SongState) :
    (songResolve o now vid s).events
        = [Ev.consult Tier.store, Ev.consult Tier.archive, Ev.respond] ∨
    (songResolve o now vid s).events
        = [Ev.consult Tier.store, Ev.consult Tier.archive,
           Ev.consult Tier.memory, Ev.respond] ∨
    (songResolve o now vid s).events
        = [Ev.consult Tier.store, Ev.consult Tier.archive,
           Ev.consult Tier.memory, Ev.consult Tier.store, Ev.respond] ∨
    (songResolve o now vid s).events
        = [Ev.consult Tier.store, Ev.consult Tier.archive,
           Ev.consult Tier.memory, Ev.consult Tier.store,
           Ev.consult Tier.origin, Ev.respond] ∨
    (songResolve o now vid s).events
        = [Ev.consult Tier.store, Ev.consult Tier.archive,
           Ev.consult Tier.memory, Ev.consult Tier.store,
           Ev.consult Tier.origin, Ev.respond, Ev.promote] ∨
    (songResolve o now vid s).events
        = [Ev.consult Tier.store, Ev.consult Tier.memory, Ev.respond] ∨
    (songResolve o now vid s).events
        = [Ev.consult Tier.store, Ev.consult Tier.memory,
           Ev.consult Tier.store, Ev.respond] ∨
    (songResolve o now vid s).events
        = [Ev.consult Tier.store, Ev.consult Tier.memory,
           Ev.consult Tier.store, Ev.consult Tier.origin, Ev.respond] ∨
    (songResolve o now vid s).events
        = [Ev.consult Tier.store, Ev.consult Tier.memory,
           Ev.consult Tier.store, Ev.consult Tier.origin, Ev.respond,
           Ev.promote] := by
  unfold songResolve
  cases hd : getDownloadByYoutubeId s.db vid "mp3" with
  | some d =>
    by_cases hf : (d.telegramFileId.isSome && d.status == "completed") = true
    · cases htg : o.telegramGetFile with
      | some url =>
        left
        simp [hf, htg]
      | none =>
        rcases songStep2_events o now vid s.db s.cache
            ([Ev.consult Tier.store] ++ [Ev.consult Tier.archive])
          with h | h | h | h
        · right; left; simp [hf]; simpa using h
        · right; right; left; simp [hf]; simpa using h
        · right; right; right; left; simp [hf]; simpa using h
        · right; right; right; right; left; simp [hf]; simpa using h
    · rcases songStep2_events o now vid s.db s.cache [Ev.consult Tier.store]
        with h | h | h | h
      · right; right; right; right; right; left; simp [hf, h]
      · right; right; right; right; right; right; left; simp [hf, h]
      · right; right; right; right; right; right; right; left; simp [hf, h]
      · right; right; right; right; right; right; right; right; simp [hf, h]
  | none =>
    rcases songStep2_events o now vid s.db s.cache [Ev.consult Tier.store]
      with h | h | h | h
    · right; right; right; right; right; left; simp [h]
    · right; right; right; right; right; right; left; simp [h]
    · right; right; right; right; right; right; right; left; simp [h]
    · right; right; right; right; right; right; right; right; simp [h]

/-- C3 (amended): a `/api/song` resolve consults the tiers in the order
PersistentStore (with an archive `getFile` refresh when the stored row has a
Telegram file id), then MemoryCache, then PersistentStore again, and finally
the origin fetch — each run's consult sequence is an initial segment of that
order — and whenever the background promotion is scheduled, the response was
sent immediately before it. -/
theorem songResolve_tier_order (o : SongOracles) (now : Nat) (vid : String)
    (s : SongState) :
    (isInitSeg (tierTrace (songResolve o now vid s).events)
        [Tier.store, Tier.archive, Tier.memory, Tier.store, Tier.origin]
          = true ∨
     isInitSeg (tierTrace (songResolve o now vid s).events)
        [Tier.store, Tier.memory, Tier.store, Tier.origin] = true) ∧
    (Ev.promote ∈ (songResolve o now vid s).events →
      ∃ l, (songResolve o now vid s).events
        = l ++ [Ev.respond, Ev.promote]) := by
  rcases songResolve_events o now vid s with h | h | h | h | h | h | h | h | h <;>
    rw [h] <;> constructor
  · decide
  · intro hp
    simp at hp
  · decide
  · intro hp
    simp at hp
  · decide
  · intro hp
    simp at hp
  · decide
  · intro hp
    simp at hp
  · decide
  · intro hp
    exact ⟨[Ev.consult Tier.store, Ev.consult Tier.archive,
      Ev.consult Tier.memory, Ev.consult Tier.store,
      Ev.consult Tier.origin], rfl⟩
  · decide
  · intro hp
    simp at hp
  · decide
  · intro hp
    simp at hp
  · decide
  · intro hp
    simp at hp
  · decide
  · intro hp
    exact ⟨[Ev.consult Tier.store, Ev.consult Tier.memory,
      Ev.consult Tier.store, Ev.consult Tier.origin], rfl⟩

/-- A completed row for key `K/mp3` carrying a Telegram file id. -/
def telegramRow : Download :=
  { id := 0, youtubeId := "K", format := "mp3", title := some "T",
    telegramFileId := some "F", status := "completed",
    downloadUrl := some "u" }

/-- A state in which the memory cache holds a usable entry for `K/mp3` and
the store holds a completed Telegram-backed row for the same key. -/
def memoryFirstState : SongState :=
  { db := [telegramRow],
    cache := FastCache.set FastCache.empty "K" "mp3" (demoItem "m") 0 }

/-- Oracles for a run in which the Telegram `getFile` refresh succeeds. -/
def tgOracles : SongOracles :=
  { telegramGetFile := some "fresh", videoInfo := none, apiDownload := none }

/-- C3 counterexample: with the memory cache holding a usable entry for the
key, the handler still consults the PersistentStore first and answers from
the Telegram tier, never consulting MemoryCache — the claimed
MemoryCache-first order is violated. -/
theorem songResolve_memory_not_first :
    tierTrace (songResolve tgOracles 1 "K" memoryFirstState).events
      = [Tier.store, Tier.archive] ∧
    Tier.memory ∉ tierTrace (songResolve tgOracles 1 "K" memoryFirstState).events := by
  constructor
  · rfl
  · decide

/-- Oracles for a successful origin fetch. -/
def successOracles : SongOracles :=
  { telegramGetFile := none, videoInfo := some ("T", "3:00"),
    apiDownload := some "u1" }

/-- The empty initial state: no rows, empty cache. -/
def emptySongState : SongState :=
  { db := [], cache := FastCache.empty }

/-- Witness for the amended C3: on a fresh key resolved from the origin, the
promotion is scheduled and the events end with respond-then-promote. -/
theorem songResolve_tier_order_witness :
    ∃ l, (songResolve successOracles 1 "K" emptySongState).events
      = l ++ [Ev.respond, Ev.promote] :=
  (songResolve_tier_order successOracles 1 "K" emptySongState).2 (by decide)

/-! ## Claim C2: per-key uniqueness of `downloads` rows -/

/-- Oracles for a run whose origin metadata fetch fails (`getVideoInfo`
returns `null`). -/
def failOracles : SongOracles :=
  { telegramGetFile := none, videoInfo := none, apiDownload := none }

/-- C2 counterexample: a resolve whose origin fetch fails leaves a `failed`
row; a second resolve for the same key inserts a second row (the schema has
no unique constraint on `(youtube_id, format)` and `createDownload` never
conflicts), so a reachable state holds two rows for one key. -/
theorem downloads_key_not_unique :
    keyCount ((songResolve successOracles 2 "K"
      ((songResolve failOracles 1 "K" emptySongState).state)).state.db)
      "K" "mp3" = 2 := by decide

/-- C2 (amended): the `downloads` schema declares no unique constraint on
`(youtube_id, format)`, so `createDownload` unconditionally appends a new
row for the key: the number of rows for the key always grows by one,
whatever rows (including `failed` ones) already exist. -/
theorem createDownload_no_unique (db : List Download) (yid fmt : String) :
    keyCount (createDownload db yid fmt).2 yid fmt = keyCount db yid fmt + 1 ∧
    (createDownload db yid fmt).2 = db ++ [(createDownload db yid fmt).1] := by
  constructor
  · simp [keyCount, createDownload, List.filter_append]
  · rfl

/-! ## Claim C4: `failed` records and re-attempts -/

/-- A `failed` row for key `K/mp3`. -/
def failedRow : Download :=
  { id := 0, youtubeId := "K", format := "mp3", status := "failed" }

/-- C4 counterexample: with the store holding exactly one row for `K/mp3`,
of status `failed`, a new resolve does not treat it as authoritative: the
lookup (filtered on `status = "completed"`) misses, the run proceeds to the
origin and invokes the content fetch once. -/
theorem failed_record_refetches :
    getDownloadByYoutubeId [failedRow] "K" "mp3" = none ∧
    (songResolve successOracles 1 "K"
      { db := [failedRow], cache := FastCache.empty }).contentFetches = 1 := by
  constructor
  · rfl
  · decide

theorem updateDownload_length (db : List Download) (i : Nat) (u : DlUpdate) :
    (updateDownload db i u).length = db.length := by
  simp [updateDownload]

theorem songCreateAndFetch_spec (o : SongOracles) (now : Nat) (vid : String)
    (db : List Download) (cache : FastCache) (evs : List Ev) :
    Tier.origin ∈ tierTrace (songCreateAndFetch o now vid db cache evs).events ∧
    (songCreateAndFetch o now vid db cache evs).state.db.length
      = db.length + 1 := by
  unfold songCreateAndFetch
  cases hvi : o.videoInfo with
  | none =>
    constructor
    · simp [tierTrace]
    · simp [updateDownload_length, createDownload]
  | some vi =>
    cases had : o.apiDownload with
    | none =>
      constructor
      · simp [tierTrace]
      · simp [updateDownload_length, createDownload]
    | some url =>
      constructor
      · simp [tierTrace]
      · simp [updateDownload_length, createDownload]

/-- C4 (amended): a `failed` record is not authoritative — it is invisible.
When every row for the key has status `failed` and the memory cache misses,
`getDownloadByYoutubeId` returns `none`, and the resolve silently proceeds
to the origin tier, inserting a fresh row for the key. -/
theorem failed_record_not_authoritative (s : SongState) (vid : String)
    (o : SongOracles) (now : Nat)
    (hfail : ∀ d ∈ s.db, d.youtubeId = vid → d.format = "mp3" →
      d.status = "failed")
    (hmiss : (FastCache.get s.cache vid "mp3" now).1 = none) :
    getDownloadByYoutubeId s.db vid "mp3" = none ∧
    Tier.origin ∈ tierTrace (songResolve o now vid s).events ∧
    (songResolve o now vid s).state.db.length = s.db.length + 1 := by
  have hnone : getDownloadByYoutubeId s.db vid "mp3" = none := by
    unfold getDownloadByYoutubeId
    rw [List.find?_eq_none]
    intro d hd hmatch
    simp only [Bool.and_eq_true, beq_iff_eq] at hmatch
    have := hfail d hd hmatch.1.1 hmatch.1.2
    rw [this] at hmatch
    simp at hmatch
  refine ⟨hnone, ?_, ?_⟩
  · unfold songResolve songStep2 songStep3
    simp only [hnone, hmiss]
    exact (songCreateAndFetch_spec o now vid s.db _ _).1
  · unfold songResolve songStep2 songStep3
    simp only [hnone, hmiss]
    exact (songCreateAndFetch_spec o now vid s.db _ _).2

/-- Witness for the amended C4 at a concrete input: a single failed row,
empty cache, successful origin. -/
theorem failed_record_not_authoritative_witness :
    getDownloadByYoutubeId [failedRow] "K" "mp3" = none ∧
    Tier.origin ∈ tierTrace (songResolve failOracles 1 "K"
      { db := [failedRow], cache := FastCache.empty }).events ∧
    (songResolve failOracles 1 "K"
      { db := [failedRow], cache := FastCache.empty }).state.db.length
      = ([failedRow] : List Download).length + 1 :=
  failed_record_not_authoritative
    { db := [failedRow], cache := FastCache.empty } "K" failOracles 1
    (by intro d hd h1 h2; simp at hd; rw [hd]; rfl)
    (by rfl)

/-! ## The `/api/video/:videoId` handler of `src/server/routes.ts` (first
revision) and claim C5 -/

/-- The result of `telegramSearch.findExistingFile` consulted first by the
video handler. -/
structure TgSearchResult where
  title : String
  downloadUrl : Option String
  fileType : String
  duration : Option Nat
  fileSize : Option Nat
deriving Repr, DecidableEq

/-- External collaborators of the `/api/video` handler: the Telegram channel
search, `getVideoInfo`, `downloadVideo` (buffer length when it succeeds) and
`telegramService.uploadVideo` (message id, file id, download URL). -/
structure VideoOracles where
  telegramSearch : Option TgSearchResult
  videoInfo : Option (String × String)
  videoBuffer : Option Nat
  uploadResult : Option (String × String × String)
deriving Repr, DecidableEq

/-- Outcome of one `/api/video` run. -/
structure VideoResult where
  resp : HttpResponse
  db : List Download
  events : List Ev
deriving Repr, DecidableEq

/-- The tail of the `/api/video` handler after the Telegram-search and
database-cache misses: create the row, fetch metadata (404 on `null`),
download the video (500 on failure), upload to Telegram (500 on failure),
then mark completed and respond.  The `size` string of the success response
(a floating-point MB rendering of `fileSize`) is presentation-only and not
modelled. -/
def videoCreateAndFetch (o : VideoOracles) (videoId : String)
    (db : List Download) (evs : List Ev) : VideoResult :=
  let pr := createDownload db videoId "mp4"
  let evs1 := evs ++ [Ev.consult Tier.origin]
  match o.videoInfo with
  | none =>
    { resp := { code := 404, body := { error := some "Video not found" } },
      db := updateDownload pr.2 pr.1.id { status := some "failed" },
      events := evs1 ++ [Ev.respond] }
  | some vi =>
    match o.videoBuffer with
    | none =>
      { resp := { code := 500, body := { error := some "Download failed" } },
        db := updateDownload pr.2 pr.1.id { status := some "failed" },
        events := evs1 ++ [Ev.respond] }
    | some len =>
      match o.uploadResult with
      | none =>
        { resp :=
            { code := 500,
              body := { error := some "Upload to Telegram failed" } },
          db := updateDownload pr.2 pr.1.id { status := some "failed" },
          events := evs1 ++ [Ev.respond] }
      | some tg =>
        let db2 := updateDownload pr.2 pr.1.id
          { title := some vi.1, telegramMessageId := some tg.1,
            telegramFileId := some tg.2.1, downloadUrl := some tg.2.2,
            duration := some vi.2, fileSize := some len,
            status := some "completed" }
        let upd := (getById db2 pr.1.id).getD pr.1
        { resp :=
            { code := 200,
              body :=
                { status := some "done", title := upd.title,
                  link := some ("/api/stream/" ++ videoId ++ "/mp4"),
                  format := some upd.format, duration := upd.duration } },
          db := db2, events := evs1 ++ [Ev.respond] }

/-- The database-cache check of the video handler. -/
def videoStoreCheck (o : VideoOracles) (videoId : String) (db : List Download)
    (evs : List Ev) : VideoResult :=
  let evs1 := evs ++ [Ev.consult Tier.store]
  match getDownloadByYoutubeId db videoId "mp4" with
  | some ex =>
    if ex.status == "completed" then
      { resp :=
          { code := 200,
            body :=
              { status := some "done", title := ex.title,
                link := some ("/api/stream/" ++ videoId ++ "/mp4"),
                format := some ex.format, duration := ex.duration } },
        db := db, events := evs1 ++ [Ev.respond] }
    else
      videoCreateAndFetch o videoId db evs1
  | none => videoCreateAndFetch o videoId db evs1

/-- The `/api/video/:videoId` handler: Telegram channel search first, then
the database cache, then the create-and-fetch tail. -/
def videoResolve (o : VideoOracles) (videoId : String)
    (db : List Download) : VideoResult :=
  let evs := [Ev.consult Tier.archive]
  match o.telegramSearch with
  | some tr =>
    if tr.downloadUrl.isSome then
      { resp :=
          { code := 200,
            body :=
              { status := some "done", title := some tr.title,
                link := some ("/api/stream/" ++ videoId ++ "/mp4"),
                format := some (if tr.fileType == "video" then "mp4" else "mp3"),
                duration := some (match tr.duration with
                  | some n => toString n
                  | none => "Unknown") } },
        db := db, events := evs ++ [Ev.respond] }
    else
      videoStoreCheck o videoId db evs
  | none => videoStoreCheck o videoId db evs

/-- Oracles for a video run whose origin reports NotFound (`getVideoInfo`
returns `null`), with no Telegram or database copy. -/
def notFoundVideoOracles : VideoOracles :=
  { telegramSearch := none, videoInfo := none, videoBuffer := none,
    uploadResult := none }

/-- C5 counterexample: on origin NotFound for `K2/video` the handler
responds 404 with body `{error: "Video not found"}` — the body carries no
`status`, no `message`, no `videoId` and no `format` field, contradicting
the claimed `{status:"error", message, videoId, format}` shape. -/
theorem video_notFound_body_shape :
    (videoResolve notFoundVideoOracles "K2" []).resp.code = 404 ∧
    (videoResolve notFoundVideoOracles "K2" []).resp.body.status = none ∧
    (videoResolve notFoundVideoOracles "K2" []).resp.body.message = none ∧
    (videoResolve notFoundVideoOracles "K2" []).resp.body.videoId = none ∧
    (videoResolve notFoundVideoOracles "K2" []).resp.body.format = none ∧
    (videoResolve notFoundVideoOracles "K2" []).resp.body.error
      = some "Video not found" := by
  refine ⟨rfl, rfl, rfl, rfl, rfl, rfl⟩

/-- C5 (amended): when the Telegram search misses, the store has no
completed row for the key and the origin metadata fetch reports NotFound,
the video handler responds 404 with body `{error: "Video not found"}` (no
status/message/videoId/format fields), and a row for the key is left with
status `failed`. -/
theorem video_notFound_404_and_failed (o : VideoOracles) (vid : String)
    (db : List Download)
    (hsearch : o.telegramSearch = none)
    (hinfo : o.videoInfo = none)
    (hnone : getDownloadByYoutubeId db vid "mp4" = none) :
    (videoResolve o vid db).resp
        = { code := 404, body := { error := some "Video not found" } } ∧
    ∃ d ∈ (videoResolve o vid db).db, d.youtubeId = vid ∧ d.format = "mp4"
      ∧ d.status = "failed" := by
  have hres : videoResolve o vid db
      = videoCreateAndFetch o vid db
          ([Ev.consult Tier.archive] ++ [Ev.consult Tier.store]) := by
    unfold videoResolve videoStoreCheck
    simp [hsearch, hnone]
  constructor
  · rw [hres]
    unfold videoCreateAndFetch
    simp [hinfo]
  · rw [hres]
    unfold videoCreateAndFetch
    simp only [hinfo]
    refine ⟨applyUpdate (createDownload db vid "mp4").1
      { status := some "failed" }, ?_, rfl, rfl, rfl⟩
    have hmem : (createDownload db vid "mp4").1
        ∈ (createDownload db vid "mp4").2 := by
      unfold createDownload
      simp
    have hmap := List.mem_map_of_mem
      (fun d => if d.id == (createDownload db vid "mp4").1.id
        then applyUpdate d { status := some "failed" } else d) hmem
    unfold updateDownload
    simpa using hmap

/-- Witness for the amended C5: scenario C at `K2` on an empty store. -/
theorem video_notFound_404_and_failed_witness :
    (videoResolve notFoundVideoOracles "K2" []).resp
        = { code := 404, body := { error := some "Video not found" } } ∧
    ∃ d ∈ (videoResolve notFoundVideoOracles "K2" []).db,
      d.youtubeId = "K2" ∧ d.format = "mp4" ∧ d.status = "failed" :=
  video_notFound_404_and_failed notFoundVideoOracles "K2" [] rfl rfl rfl

/-! ## Claim C9: the polling loops of `src/server/services/youtube.ts` -/

/-- One JSON answer of the third-party API inside the polling loop:
a non-OK HTTP response, `status: "completed"` (with or without a
`downloadUrl`), `status: "processing"`, `status: "failed"` (with an optional
error message), or any other body. -/
inductive ApiPollResponse
  | httpError (code : Nat)
  | completed (downloadUrl : Option String)
  | processing
  | failed (err : Option String)
  | other
deriving Repr, DecidableEq

/-- The `DownloadResult` interface of `youtube.ts`; the byte buffer is
modelled by its length. -/
structure DownloadResult where
  filePath : Option String := none
  buffer : Option Nat := none
  isDirect : Bool
  error : Option String := none
deriving Repr, DecidableEq

/-- Accumulated observable behaviour of the `for` polling loop: the final
outcome (the thrown error is an `Except.error`, caught by the enclosing
`try`), the number of provider calls, and the list of waits performed. -/
structure PollOutcome where
  outcome : Except String String
  calls : Nat
  waits : List Nat
deriving Repr

/-- The `for (let attempt = 0; attempt < 10; attempt++)` polling loop body:
non-OK responses and `failed` bodies throw; `completed` with a URL returns;
`processing` waits `waitMs` and retries; any other body retries without
waiting.  Exhausting the bound throws `"Max retries reached"`. -/
def pollFrom (provider : Nat → ApiPollResponse) (waitMs : Nat) :
    Nat → Nat → PollOutcome
  | 0, _ =>
    { outcome := Except.error "Max retries reached. Still downloading...",
      calls := 0, waits := [] }
  | r + 1, attempt =>
    match provider attempt with
    | ApiPollResponse.httpError c =>
      { outcome := Except.error
          ("API request failed with status " ++ toString c),
        calls := 1, waits := [] }
    | ApiPollResponse.completed (some url) =>
      { outcome := Except.ok url, calls := 1, waits := [] }
    | ApiPollResponse.completed none =>
      let rest := pollFrom provider waitMs r (attempt + 1)
      { rest with calls := rest.calls + 1 }
    | ApiPollResponse.processing =>
      let rest := pollFrom provider waitMs r (attempt + 1)
      { outcome := rest.outcome, calls := rest.calls + 1,
        waits := waitMs :: rest.waits }
    | ApiPollResponse.failed e =>
      { outcome := Except.error
          ("Download failed: " ++ e.getD "Unknown error"),
        calls := 1, waits := [] }
    | ApiPollResponse.other =>
      let rest := pollFrom provider waitMs r (attempt + 1)
      { rest with calls := rest.calls + 1 }

/-- Method `YouTubeService.downloadSongViaAPI`: local file-cache check, then up to
10 polls with a fixed 4000 ms wait; every thrown error is caught and turned
into a `DownloadResult` with an `error` field.  Returns the result together
with the number of provider calls and the waits performed. -/
def downloadSongViaAPI (cached : Option Nat)
    (provider : Nat → ApiPollResponse) :
    DownloadResult × Nat × List Nat :=
  match cached with
  | some buf => ({ buffer := some buf, isDirect := true }, 0, [])
  | none =>
    let po := pollFrom provider 4000 10 0
    match po.outcome with
    | Except.ok url =>
      ({ isDirect := false, filePath := some url }, po.calls, po.waits)
    | Except.error e =>
      ({ isDirect := false, error := some e }, po.calls, po.waits)

/-- Method `YouTubeService.downloadVideoViaAPI`: identical loop with an 8000 ms
wait. -/
def downloadVideoViaAPI (cached : Option Nat)
    (provider : Nat → ApiPollResponse) :
    DownloadResult × Nat × List Nat :=
  match cached with
  | some buf => ({ buffer := some buf, isDirect := true }, 0, [])
  | none =>
    let po := pollFrom provider 8000 10 0
    match po.outcome with
    | Except.ok url =>
      ({ isDirect := false, filePath := some url }, po.calls, po.waits)
    | Except.error e =>
      ({ isDirect := false, error := some e }, po.calls, po.waits)

theorem pollFrom_calls_le (provider : Nat → ApiPollResponse) (waitMs : Nat)
    (r : Nat) : ∀ a, (pollFrom provider waitMs r a).calls ≤ r := by
  induction r with
  | zero => intro a; simp [pollFrom]
  | succ n ih =>
    intro a
    unfold pollFrom
    cases provider a with
    | httpError c => simp
    | completed u =>
      cases u with
      | some url => simp
      | none => simpa using ih (a + 1)
    | processing => simpa using ih (a + 1)
    | failed e => simp
    | other => simpa using ih (a + 1)

theorem pollFrom_waits_fixed (provider : Nat → ApiPollResponse)
    (waitMs : Nat) (r : Nat) :
    ∀ a, ∀ w ∈ (pollFrom provider waitMs r a).waits, w = waitMs := by
  induction r with
  | zero => intro a w hw; simp [pollFrom] at hw
  | succ n ih =>
    intro a w hw
    unfold pollFrom at hw
    cases hp : provider a with
    | httpError c => rw [hp] at hw; simp at hw
    | completed u =>
      cases u with
      | some url => rw [hp] at hw; simp at hw
      | none =>
        rw [hp] at hw
        simp at hw
        exact ih (a + 1) w hw
    | processing =>
      rw [hp] at hw
      simp at hw
      rcases hw with hw | hw
      · exact hw
      · exact ih (a + 1) w hw
    | failed e => rw [hp] at hw; simp at hw
    | other =>
      rw [hp] at hw
      simp at hw
      exact ih (a + 1) w hw

theorem pollFrom_all_processing (provider : Nat → ApiPollResponse)
    (waitMs : Nat) (hp : ∀ n, provider n = ApiPollResponse.processing)
    (r : Nat) :
    ∀ a, pollFrom provider waitMs r a
      = { outcome :=
            Except.error "Max retries reached. Still downloading...",
          calls := r, waits := List.replicate r waitMs } := by
  induction r with
  | zero => intro a; simp [pollFrom]
  | succ n ih =>
    intro a
    unfold pollFrom
    rw [hp a, ih (a + 1)]
    simp [List.replicate]

/-- C9: each of `downloadSongViaAPI` and `downloadVideoViaAPI` makes at most
10 polling attempts; every wait between polls is the fixed backoff (4000 ms
for the song loop, 8000 ms for the video loop); and when the provider keeps
reporting "processing", the loop terminates after exactly 10 polls and
returns a result value carrying the max-retries error message (no URL), not
an unhandled exception. -/
theorem download_poll_bounded (cached : Option Nat)
    (provider : Nat → ApiPollResponse) :
    (downloadSongViaAPI cached provider).2.1 ≤ 10 ∧
    (∀ w ∈ (downloadSongViaAPI cached provider).2.2, w = 4000) ∧
    (downloadVideoViaAPI cached provider).2.1 ≤ 10 ∧
    (∀ w ∈ (downloadVideoViaAPI cached provider).2.2, w = 8000) ∧
    (cached = none → (∀ n, provider n = ApiPollResponse.processing) →
      (downloadSongViaAPI cached provider).1.error
          = some "Max retries reached. Still downloading..." ∧
      (downloadSongViaAPI cached provider).1.filePath = none ∧
      (downloadSongViaAPI cached provider).2.1 = 10) := by
  refine ⟨?_, ?_, ?_, ?_, ?_⟩
  · cases cached with
    | some buf => simp [downloadSongViaAPI]
    | none =>
      have h := pollFrom_calls_le provider 4000 10 0
      unfold downloadSongViaAPI
      cases ho : (pollFrom provider 4000 10 0).outcome <;> simpa [ho] using h
  · cases cached with
    | some buf => simp [downloadSongViaAPI]
    | none =>
      have h := pollFrom_waits_fixed provider 4000 10 0
      unfold downloadSongViaAPI
      cases ho : (pollFrom provider 4000 10 0).outcome <;> simpa [ho] using h
  · cases cached with
    | some buf => simp [downloadVideoViaAPI]
    | none =>
      have h := pollFrom_calls_le provider 8000 10 0
      unfold downloadVideoViaAPI
      cases ho : (pollFrom provider 8000 10 0).outcome <;> simpa [ho] using h
  · cases cached with
    | some buf => simp [downloadVideoViaAPI]
    | none =>
      have h := pollFrom_waits_fixed provider 8000 10 0
      unfold downloadVideoViaAPI
      cases ho : (pollFrom provider 8000 10 0).outcome <;> simpa [ho] using h
  · intro hc hp
    subst hc
    have h := pollFrom_all_processing provider 4000 hp 10 0
    unfold downloadSongViaAPI
    rw [h]
    simp

/-- Witness for C9: the always-processing provider with no local cache file
yields the max-retries error result after exactly 10 calls. -/
theorem download_poll_bounded_witness :
    (downloadSongViaAPI none (fun _ => ApiPollResponse.processing)).1.error
        = some "Max retries reached. Still downloading..." ∧
    (downloadSongViaAPI none (fun _ => ApiPollResponse.processing)).2.1
        = 10 :=
  ⟨((download_poll_bounded none (fun _ => ApiPollResponse.processing)).2.2.2.2
      rfl (fun _ => rfl)).1,
   ((download_poll_bounded none (fun _ => ApiPollResponse.processing)).2.2.2.2
      rfl (fun _ => rfl)).2.2⟩

/-! ## Claim C1: concurrent resolve requests and single-flight

A small-step interleaving semantics for two concurrent `/api/song` requests
for the same key.  Each atomic step is one `await` segment of the handler:
the STEP-1 store check, the memory-cache check, the STEP-3 store check, the
`createDownload` insert, the start of the `downloadSongViaAPI` call, and its
completion (which marks the row completed).  There is no in-process
registry; the only coordination is through the shared `downloads` table and
memory cache. -/

/-- Control point of one request between `await` boundaries. -/
inductive RPhase
  | start
  | memCheck
  | storeCheck2
  | createRec
  | fetchStart
  | fetchEnd
  | done
deriving Repr, DecidableEq

/-- Per-request control state: the phase and the id of the row the request
created. -/
structure ReqCtl where
  phase : RPhase
  recId : Option Nat
deriving Repr, DecidableEq

/-- Shared state plus the two requests, the number of
`downloadSongViaAPI` invocations and the number currently in flight. -/
structure TwoReqSys where
  db : List Download
  cache : FastCache
  r1 : ReqCtl
  r2 : ReqCtl
  fetchCalls : Nat
  inflight : Nat
deriving Repr, DecidableEq

/-- Advance one request by one atomic step against the shared state. -/
def ctlStep (key : String) (now : Nat) (s : TwoReqSys) (c : ReqCtl) :
    TwoReqSys × ReqCtl :=
  match c.phase with
  | RPhase.start =>
    match getDownloadByYoutubeId s.db key "mp3" with
    | some _ => (s, { c with phase := RPhase.done })
    | none => (s, { c with phase := RPhase.memCheck })
  | RPhase.memCheck =>
    match (FastCache.get s.cache key "mp3" now).1 with
    | some _ =>
      ({ s with cache := (FastCache.get s.cache key "mp3" now).2 },
       { c with phase := RPhase.done })
    | none =>
      ({ s with cache := (FastCache.get s.cache key "mp3" now).2 },
       { c with phase := RPhase.storeCheck2 })
  | RPhase.storeCheck2 =>
    match getDownloadByYoutubeId s.db key "mp3" with
    | some _ => (s, { c with phase := RPhase.done })
    | none => (s, { c with phase := RPhase.createRec })
  | RPhase.createRec =>
    ({ s with db := (createDownload s.db key "mp3").2 },
     { phase := RPhase.fetchStart,
       recId := some (createDownload s.db key "mp3").1.id })
  | RPhase.fetchStart =>
    ({ s with fetchCalls := s.fetchCalls + 1, inflight := s.inflight + 1 },
     { c with phase := RPhase.fetchEnd })
  | RPhase.fetchEnd =>
    ({ s with
       inflight := s.inflight - 1,
       db := (updateDownload s.db (c.recId.getD 0)
         { title := some "T", downloadUrl := some "u",
           duration := some "3:00", status := some "completed" }) },
     { c with phase := RPhase.done })
  | RPhase.done => (s, c)

/-- Schedule step: `true` advances request 1, `false` request 2. -/
def reqStep (key : String) (now : Nat) (w : Bool) (s : TwoReqSys) :
    TwoReqSys :=
  if w then
    { (ctlStep key now s s.r1).1 with
      r1 := (ctlStep key now s s.r1).2, r2 := s.r2 }
  else
    { (ctlStep key now s s.r2).1 with
      r2 := (ctlStep key now s s.r2).2, r1 := s.r1 }

/-- Run a schedule from a state. -/
def runSched (key : String) (now : Nat) (sched : List Bool)
    (s : TwoReqSys) : TwoReqSys :=
  sched.foldl (fun st w => reqStep key now w st) s

/-- Both requests at their first step against the given shared state. -/
def initTwoReq (db : List Download) (cache : FastCache) : TwoReqSys :=
  { db := db, cache := cache,
    r1 := { phase := RPhase.start, recId := none },
    r2 := { phase := RPhase.start, recId := none },
    fetchCalls := 0, inflight := 0 }

/-- The lock-step schedule: each request advances alternately through its
first five segments. -/
def raceSched : List Bool :=
  [true, false, true, false, true, false, true, false, true, false]

/-- C1 counterexample: for a key with no existing record, two concurrent
resolve requests interleaved at `await` boundaries each miss every cache
tier, each insert a row, and each invoke the origin fetch — reaching a state
with 2 invocations and 2 fetches simultaneously in flight, contradicting
both the exactly-one-invocation and the at-most-one-in-flight claims. -/
theorem concurrent_requests_double_fetch :
    (runSched "K" 0 raceSched (initTwoReq [] FastCache.empty)).fetchCalls = 2
    ∧ (runSched "K" 0 raceSched (initTwoReq [] FastCache.empty)).inflight = 2
    := by
  refine ⟨rfl, rfl⟩

/-- The invariant of the coalescing argument: with a completed record
already in the store, both requests only ever sit at their first step or are
finished, and nothing was fetched. -/
def CoalesceInv (db0 : List Download) (s : TwoReqSys) : Prop :=
  s.db = db0 ∧ s.fetchCalls = 0 ∧ s.inflight = 0 ∧
  (s.r1.phase = RPhase.start ∨ s.r1.phase = RPhase.done) ∧
  (s.r2.phase = RPhase.start ∨ s.r2.phase = RPhase.done)

theorem reqStep_true (key : String) (now : Nat) (s : TwoReqSys) :
    reqStep key now true s
      = { (ctlStep key now s s.r1).1 with
          r1 := (ctlStep key now s s.r1).2, r2 := s.r2 } := rfl

theorem reqStep_false (key : String) (now : Nat) (s : TwoReqSys) :
    reqStep key now false s
      = { (ctlStep key now s s.r2).1 with
          r2 := (ctlStep key now s s.r2).2, r1 := s.r1 } := rfl

theorem ctlStep_frozen (key : String) (now : Nat) (db0 : List Download)
    (d : Download) (hrec : getDownloadByYoutubeId db0 key "mp3" = some d)
    (s : TwoReqSys) (hdb : s.db = db0) (c : ReqCtl)
    (hp : c.phase = RPhase.start ∨ c.phase = RPhase.done) :
    (ctlStep key now s c).1 = s ∧
    ((ctlStep key now s c).2.phase = RPhase.start ∨
     (ctlStep key now s c).2.phase = RPhase.done) := by
  rcases hp with hp | hp
  · unfold ctlStep
    rw [hp, hdb, hrec]
    exact ⟨rfl, Or.inr rfl⟩
  · unfold ctlStep
    rw [hp]
    exact ⟨rfl, Or.inr hp⟩

theorem reqStep_preserves_coalesce (db0 : List Download) (key : String)
    (now : Nat) (d : Download)
    (hrec : getDownloadByYoutubeId db0 key "mp3" = some d)
    (s : TwoReqSys) (hinv : CoalesceInv db0 s) (w : Bool) :
    CoalesceInv db0 (reqStep key now w s) := by
  obtain ⟨hdb, hf, hi, h1, h2⟩ := hinv
  cases w
  · have hc := ctlStep_frozen key now db0 d hrec s hdb s.r2 h2
    rw [reqStep_false, hc.1]
    exact ⟨hdb, hf, hi, h1, hc.2⟩
  · have hc := ctlStep_frozen key now db0 d hrec s hdb s.r1 h1
    rw [reqStep_true, hc.1]
    exact ⟨hdb, hf, hi, hc.2, h2⟩

/-- C1 (amended): there is no in-process single-flight registry — two
concurrent requests for an unrecorded key may each invoke the origin fetch,
with both in flight at once (see the counterexample) — but coalescing does
hold through the store once a completed record exists: with a completed
record for the key present initially, no schedule of the two requests ever
invokes the origin fetch. -/
theorem completed_record_coalesces (db0 : List Download) (key : String)
    (now : Nat) (d : Download) (cache : FastCache)
    (hrec : getDownloadByYoutubeId db0 key "mp3" = some d)
    (sched : List Bool) :
    (runSched key now sched (initTwoReq db0 cache)).fetchCalls = 0 ∧
    (runSched key now sched (initTwoReq db0 cache)).db = db0 := by
  have hrun : ∀ s : TwoReqSys, CoalesceInv db0 s →
      CoalesceInv db0 (runSched key now sched s) := by
    induction sched with
    | nil => intro s hs; exact hs
    | cons w t ih =>
      intro s hs
      exact ih _ (reqStep_preserves_coalesce db0 key now d hrec s hs w)
  have h0 : CoalesceInv db0 (initTwoReq db0 cache) :=
    ⟨rfl, rfl, rfl, Or.inl rfl, Or.inl rfl⟩
  obtain ⟨hdb, hf, _, _, _⟩ := hrun _ h0
  exact ⟨hf, hdb⟩

/-- A completed row for key `K/mp3` without a Telegram file id. -/
def completedRow : Download :=
  { id := 0, youtubeId := "K", format := "mp3", title := some "T",
    status := "completed", downloadUrl := some "u" }

/-- Witness for the amended C1: with a completed record present, the
lock-step schedule performs no origin fetch. -/
theorem completed_record_coalesces_witness :
    (runSched "K" 0 raceSched
      (initTwoReq [completedRow] FastCache.empty)).fetchCalls = 0 ∧
    (runSched "K" 0 raceSched
      (initTwoReq [completedRow] FastCache.empty)).db = [completedRow] :=
  completed_record_coalesces [completedRow] "K" 0 completedRow
    FastCache.empty (by rfl) raceSched

/-! ## Claim C8: the `setImmediate` background promotion block

A small-step interleaving semantics for the background upload block of the
`/api/song` handler (lines 403-456 of `src/server/routes.ts`): two checks of
the stored row's Telegram file id, the audio download, a final check, the
upload, and the database update.  The whole block runs inside a `try` whose
`catch` only logs, so a promoter run always terminates normally. -/

/-- Control point of one promotion attempt between `await` boundaries. -/
inductive PPhase
  | check1
  | check2
  | download
  | finalCheck
  | upload
  | updateDb
  | done
deriving Repr, DecidableEq

/-- Per-promoter control: phase, the id of the triggering row (captured as
`download.id` by the closure), and whether its audio download succeeds. -/
structure PromoCtl where
  phase : PPhase
  recId : Nat
  audioOk : Bool
deriving Repr, DecidableEq

/-- Shared store plus two promotion attempts and the number of Telegram
uploads performed. -/
structure PromoSys where
  db : List Download
  p1 : PromoCtl
  p2 : PromoCtl
  uploads : Nat
deriving Repr, DecidableEq

/-- Advance one promoter by one atomic step. -/
def promoCtlStep (key : String) (s : PromoSys) (c : PromoCtl) :
    PromoSys × PromoCtl :=
  match c.phase with
  | PPhase.check1 =>
    match getDownloadByYoutubeId s.db key "mp3" with
    | some d =>
      if d.telegramFileId.isSome then (s, { c with phase := PPhase.done })
      else (s, { c with phase := PPhase.check2 })
    | none => (s, { c with phase := PPhase.check2 })
  | PPhase.check2 =>
    match getDownloadByYoutubeId s.db key "mp3" with
    | some d =>
      if d.telegramFileId.isSome then (s, { c with phase := PPhase.done })
      else (s, { c with phase := PPhase.download })
    | none => (s, { c with phase := PPhase.download })
  | PPhase.download =>
    if c.audioOk then (s, { c with phase := PPhase.finalCheck })
    else (s, { c with phase := PPhase.done })
  | PPhase.finalCheck =>
    match getDownloadByYoutubeId s.db key "mp3" with
    | some d =>
      if d.telegramFileId.isSome then (s, { c with phase := PPhase.done })
      else (s, { c with phase := PPhase.upload })
    | none => (s, { c with phase := PPhase.upload })
  | PPhase.upload =>
    ({ s with uploads := s.uploads + 1 }, { c with phase := PPhase.updateDb })
  | PPhase.updateDb =>
    ({ s with db := (updateDownload s.db c.recId
        { telegramMessageId := some "M", telegramFileId := some "F",
          fileSize := some 1 }) },
     { c with phase := PPhase.done })
  | PPhase.done => (s, c)

/-- Schedule step for the promoter system. -/
def promoStep (key : String) (w : Bool) (s : PromoSys) : PromoSys :=
  if w then
    { (promoCtlStep key s s.p1).1 with
      p1 := (promoCtlStep key s s.p1).2, p2 := s.p2 }
  else
    { (promoCtlStep key s s.p2).1 with
      p2 := (promoCtlStep key s s.p2).2, p1 := s.p1 }

/-- Run a schedule of promoter steps. -/
def runPromo (key : String) (sched : List Bool) (s : PromoSys) : PromoSys :=
  sched.foldl (fun st w => promoStep key w st) s

/-- Both promoters (for the same triggering row) at their first check. -/
def initPromo (db : List Download) (recId : Nat) : PromoSys :=
  { db := db,
    p1 := { phase := PPhase.check1, recId := recId, audioOk := true },
    p2 := { phase := PPhase.check1, recId := recId, audioOk := true },
    uploads := 0 }

/-- Lock-step schedule driving both promoters through their five segments. -/
def promoRaceSched : List Bool :=
  [true, false, true, false, true, false, true, false, true, false]

/-- C8 counterexample: the existence check and the upload are separated by
`await` boundaries (the audio download among them), so two promotion
attempts racing on a completed row without a Telegram file id both pass
every check before either records a file id — two archive uploads occur,
contradicting the claimed at-most-one-upload guarantee. -/
theorem promoter_race_double_upload :
    (runPromo "K" promoRaceSched (initPromo [completedRow] 0)).uploads
      = 2 := by
  rfl

theorem promoStep_true (key : String) (s : PromoSys) :
    promoStep key true s
      = { (promoCtlStep key s s.p1).1 with
          p1 := (promoCtlStep key s s.p1).2, p2 := s.p2 } := rfl

theorem promoStep_false (key : String) (s : PromoSys) :
    promoStep key false s
      = { (promoCtlStep key s s.p2).1 with
          p2 := (promoCtlStep key s s.p2).2, p1 := s.p1 } := rfl

/-- Invariant for the abort argument: the store still holds a row with a
Telegram file id as the first completed row for the key, nothing was
uploaded, and each promoter is at its first check or finished. -/
def AbortInv (db0 : List Download) (s : PromoSys) : Prop :=
  s.db = db0 ∧ s.uploads = 0 ∧
  (s.p1.phase = PPhase.check1 ∨ s.p1.phase = PPhase.done) ∧
  (s.p2.phase = PPhase.check1 ∨ s.p2.phase = PPhase.done)

theorem promoCtlStep_aborts (key : String) (db0 : List Download)
    (d : Download) (hrec : getDownloadByYoutubeId db0 key "mp3" = some d)
    (hfile : d.telegramFileId.isSome = true)
    (s : PromoSys) (hdb : s.db = db0) (c : PromoCtl)
    (hp : c.phase = PPhase.check1 ∨ c.phase = PPhase.done) :
    (promoCtlStep key s c).1 = s ∧
    ((promoCtlStep key s c).2.phase = PPhase.check1 ∨
     (promoCtlStep key s c).2.phase = PPhase.done) := by
  rcases hp with hp | hp
  · unfold promoCtlStep
    rw [hp, hdb, hrec]
    simp [hfile]
  · unfold promoCtlStep
    rw [hp]
    exact ⟨rfl, Or.inr hp⟩

theorem promoStep_preserves_abort (key : String) (db0 : List Download)
    (d : Download) (hrec : getDownloadByYoutubeId db0 key "mp3" = some d)
    (hfile : d.telegramFileId.isSome = true)
    (s : PromoSys) (hinv : AbortInv db0 s) (w : Bool) :
    AbortInv db0 (promoStep key w s) := by
  obtain ⟨hdb, hu, h1, h2⟩ := hinv
  cases w
  · have hc := promoCtlStep_aborts key db0 d hrec hfile s hdb s.p2 h2
    rw [promoStep_false, hc.1]
    exact ⟨hdb, hu, h1, hc.2⟩
  · have hc := promoCtlStep_aborts key db0 d hrec hfile s hdb s.p1 h1
    rw [promoStep_true, hc.1]
    exact ⟨hdb, hu, hc.2, h2⟩

/-- Abort half of the promoter argument: when the stored row for the key
already carries a Telegram file id, every promotion attempt aborts at its
first check — under any schedule of the two attempts no upload happens and
the store is untouched. -/
theorem promoter_aborts_on_existing_reference (db0 : List Download)
    (key : String) (d : Download) (recId : Nat)
    (hrec : getDownloadByYoutubeId db0 key "mp3" = some d)
    (hfile : d.telegramFileId.isSome = true) (sched : List Bool) :
    (runPromo key sched (initPromo db0 recId)).uploads = 0 ∧
    (runPromo key sched (initPromo db0 recId)).db = db0 := by
  have hrun : ∀ s : PromoSys, AbortInv db0 s →
      AbortInv db0 (runPromo key sched s) := by
    induction sched with
    | nil => intro s hs; exact hs
    | cons w t ih =>
      intro s hs
      exact ih _ (promoStep_preserves_abort key db0 d hrec hfile s hs w)
  have h0 : AbortInv db0 (initPromo db0 recId) :=
    ⟨rfl, rfl, Or.inl rfl, Or.inl rfl⟩
  obtain ⟨hdb, hu, _, _⟩ := hrun _ h0
  exact ⟨hu, hdb⟩

/-- Phases reachable by a promoter whose audio download fails. -/
def swallowPhase : PPhase → Bool
  | PPhase.check1 => true
  | PPhase.check2 => true
  | PPhase.download => true
  | PPhase.done => true
  | _ => false

theorem promoCtlStep_swallow (key : String) (s : PromoSys) (c : PromoCtl)
    (hph : swallowPhase c.phase = true) (hao : c.audioOk = false) :
    (promoCtlStep key s c).1 = s ∧
    swallowPhase (promoCtlStep key s c).2.phase = true ∧
    (promoCtlStep key s c).2.audioOk = false := by
  cases hc : c.phase with
  | check1 =>
    unfold promoCtlStep
    rw [hc]
    cases hg : getDownloadByYoutubeId s.db key "mp3" with
    | some d =>
      by_cases hfi : d.telegramFileId.isSome = true
      · simp [hfi, swallowPhase, hao]
      · simp [hfi, swallowPhase, hao]
    | none => simp [swallowPhase, hao]
  | check2 =>
    unfold promoCtlStep
    rw [hc]
    cases hg : getDownloadByYoutubeId s.db key "mp3" with
    | some d =>
      by_cases hfi : d.telegramFileId.isSome = true
      · simp [hfi, swallowPhase, hao]
      · simp [hfi, swallowPhase, hao]
    | none => simp [swallowPhase, hao]
  | download =>
    unfold promoCtlStep
    rw [hc, hao]
    simp [swallowPhase, hao]
  | finalCheck =>
    rw [hc] at hph
    simp [swallowPhase] at hph
  | upload =>
    rw [hc] at hph
    simp [swallowPhase] at hph
  | updateDb =>
    rw [hc] at hph
    simp [swallowPhase] at hph
  | done =>
    unfold promoCtlStep
    rw [hc]
    exact ⟨rfl, hph, hao⟩

/-- Invariant for the swallowed-failure argument. -/
def SwallowInv (db0 : List Download) (s : PromoSys) : Prop :=
  s.db = db0 ∧ s.uploads = 0 ∧
  swallowPhase s.p1.phase = true ∧ s.p1.audioOk = false ∧
  swallowPhase s.p2.phase = true ∧ s.p2.audioOk = false

theorem promoStep_preserves_swallow (key : String) (db0 : List Download)
    (s : PromoSys) (hinv : SwallowInv db0 s) (w : Bool) :
    SwallowInv db0 (promoStep key w s) := by
  obtain ⟨hdb, hu, h1, a1, h2, a2⟩ := hinv
  cases w
  · have hc := promoCtlStep_swallow key s s.p2 h2 a2
    rw [promoStep_false, hc.1]
    exact ⟨hdb, hu, h1, a1, hc.2.1, hc.2.2⟩
  · have hc := promoCtlStep_swallow key s s.p1 h1 a1
    rw [promoStep_true, hc.1]
    exact ⟨hdb, hu, hc.2.1, hc.2.2, h2, a2⟩

/-- Both promoters at their first check, with failing audio downloads. -/
def initPromoFail (db : List Download) (recId : Nat) : PromoSys :=
  { db := db,
    p1 := { phase := PPhase.check1, recId := recId, audioOk := false },
    p2 := { phase := PPhase.check1, recId := recId, audioOk := false },
    uploads := 0 }

/-- C8 (amended): a promotion attempt that observes an existing Telegram
file id aborts before uploading — with such a row stored, no schedule of two
attempts performs any upload or store write — and a promoter whose audio
download fails is swallowed, terminating with no upload and no store write
(never surfacing to the already-answered caller).  However, the existence
check and the upload are separated by `await` boundaries, so the
at-most-one-upload claim fails under races (see the counterexample). -/
theorem promoter_abort_and_swallow (db0 : List Download) (key : String)
    (d : Download) (recId : Nat)
    (hrec : getDownloadByYoutubeId db0 key "mp3" = some d)
    (hfile : d.telegramFileId.isSome = true) (sched : List Bool) :
    ((runPromo key sched (initPromo db0 recId)).uploads = 0 ∧
     (runPromo key sched (initPromo db0 recId)).db = db0) ∧
    (∀ db1 : List Download, ∀ r1 : Nat, ∀ sched1 : List Bool,
      (runPromo key sched1 (initPromoFail db1 r1)).uploads = 0 ∧
      (runPromo key sched1 (initPromoFail db1 r1)).db = db1) := by
  constructor
  · exact promoter_aborts_on_existing_reference db0 key d recId hrec hfile
      sched
  · intro db1 r1 sched1
    have hrun : ∀ s : PromoSys, SwallowInv db1 s →
        SwallowInv db1 (runPromo key sched1 s) := by
      induction sched1 with
      | nil => intro s hs; exact hs
      | cons w t ih =>
        intro s hs
        exact ih _ (promoStep_preserves_swallow key db1 s hs w)
    have h0 : SwallowInv db1 (initPromoFail db1 r1) :=
      ⟨rfl, rfl, rfl, rfl, rfl, rfl⟩
    obtain ⟨hdb, hu, _⟩ := hrun _ h0
    exact ⟨hu, hdb⟩

/-- A completed row for key `K/mp3` already carrying a Telegram file id. -/
def archivedRow : Download :=
  { id := 0, youtubeId := "K", format := "mp3", title := some "T",
    telegramFileId := some "F", status := "completed",
    downloadUrl := some "u" }

/-- Witness for the amended C8. -/
theorem promoter_abort_and_swallow_witness :
    (runPromo "K" promoRaceSched (initPromo [archivedRow] 0)).uploads = 0 ∧
    (runPromo "K" promoRaceSched (initPromoFail [completedRow] 0)).uploads
      = 0 :=
  ⟨(promoter_abort_and_swallow [archivedRow] "K" archivedRow 0
      (by rfl) (by rfl) promoRaceSched).1.1,
   ((promoter_abort_and_swallow [archivedRow] "K" archivedRow 0
      (by rfl) (by rfl) promoRaceSched).2 [completedRow] 0
      promoRaceSched).1⟩
